import Mathlib

/-!
Shallow embedding of the watts-up repository (src/wattsup.py, src/server.py).
Protocol strings and HTTP bodies are modelled as List Char; the numeric
values that the Python code manipulates as floats are modelled as ℚ.
Percent-decoding of url-encoded bodies is not modelled: the inputs at issue
contain no escape sequences.
-/

/-- Embedding of the Python str.split(sep) operation for a single-character
separator: splitting the empty string yields one empty field, and every
occurrence of the separator opens a new field. -/
def pySplit (c : Char) : List Char → List (List Char)
  | [] => [[]]
  | x :: xs =>
    if x = c then [] :: pySplit c xs
    else
      match pySplit c xs with
      | [] => [[x]]
      | y :: ys => (x :: y) :: ys

/-- Embedding of wattsup.getHeader (src/wattsup.py lines 78-79) applied to an
accepted header line: h.split(semicolon)[0].split(comma)[3:]. -/
def getHeader (h : List Char) : List (List Char) :=
  (pySplit ',' ((pySplit ';' h).headD [])).drop 3

/-- Decimal value of a digit string, most significant digit first. -/
def natOfDigits (l : List Char) : Nat :=
  l.foldl (fun n c => 10 * n + (c.toNat - 48)) 0

/-- Embedding of the Python int() conversion on the strings at issue: an
optional sign followed by at least one decimal digit. -/
def pyInt (s : List Char) : Option Int :=
  match s with
  | [] => none
  | '-' :: ds =>
    if ds ≠ [] ∧ ds.all Char.isDigit then some (-(natOfDigits ds : Int)) else none
  | '+' :: ds =>
    if ds ≠ [] ∧ ds.all Char.isDigit then some ((natOfDigits ds : Int)) else none
  | ds =>
    if ds.all Char.isDigit then some ((natOfDigits ds : Int)) else none

/-- Value of an unsigned decimal string with an optional fractional part,
for the Python float() conversion. -/
def pyFloatCore (cs : List Char) : Option ℚ :=
  let ip := cs.takeWhile Char.isDigit
  match cs.dropWhile Char.isDigit with
  | [] => if ip = [] then none else some ((natOfDigits ip : ℚ))
  | '.' :: fp =>
    if fp.all Char.isDigit ∧ (ip ≠ [] ∨ fp ≠ []) then
      some ((natOfDigits ip : ℚ) + (natOfDigits fp : ℚ) / 10 ^ fp.length)
    else none
  | _ => none

/-- Embedding of the Python float() conversion on the strings at issue:
optional sign, decimal digits, optional fractional part. -/
def pyFloat (s : List Char) : Option ℚ :=
  match s with
  | '-' :: cs => (pyFloatCore cs).map Neg.neg
  | '+' :: cs => pyFloatCore cs
  | cs => pyFloatCore cs

/-- Value of a hexadecimal digit, both cases accepted, as in the Python
str.decode with the hex codec. -/
def hexDigitVal (c : Char) : Option Nat :=
  if '0' ≤ c ∧ c ≤ '9' then some (c.toNat - 48)
  else if 'a' ≤ c ∧ c ≤ 'f' then some (c.toNat - 87)
  else if 'A' ≤ c ∧ c ≤ 'F' then some (c.toNat - 55)
  else none

/-- Embedding of str.decode with the hex codec: consume digit pairs into
byte values, failing on an odd length or a non-hex character. -/
def hexDecodePairs : List Char → Option (List Nat)
  | [] => some []
  | [_] => none
  | c1 :: c2 :: rest => do
    let hi ← hexDigitVal c1
    let lo ← hexDigitVal c2
    let bs ← hexDecodePairs rest
    some ((16 * hi + lo) :: bs)

/-- Lowercase hexadecimal digit character for a value below 16. -/
def hexChar (n : Nat) : Char :=
  if n < 10 then Char.ofNat (48 + n) else Char.ofNat (87 + n)

/-- Embedding of the single-byte str.encode with the hex codec: two
lowercase hexadecimal digits. -/
def byteHex (b : Nat) : List Char :=
  [hexChar (b / 16), hexChar (b % 16)]

/-- Embedding of the MAC decoding expression of wattsup.getNetworkInfo
(src/wattsup.py line 128): decode the hex field, then join the lowercase
hex encoding of each byte with colons. -/
def macDecode (s : List Char) : Option (List Char) :=
  (hexDecodePairs s).map (fun bs => List.intercalate [':'] (bs.map byteHex))

/-- The network report assembled by wattsup.getNetworkInfo
(src/wattsup.py lines 129-143), as a structured record. -/
structure NetworkInfo where
  ip : List Char
  gateway : List Char
  dns1 : List Char
  dns2 : List Char
  netmask : List Char
  dhcp : Bool
  mac : List Char
  postHost : List Char
  postPort : List Char
  postFile : List Char
  userAgent : List Char
  postInterval : List Char
deriving DecidableEq

/-- Embedding of wattsup.getNetworkInfo (src/wattsup.py lines 108-143) on
the accepted field lists: n1 from the basic query (7 fields required), n2
from the extended query (5 fields required). The dhcp flag is the Python
bool() truthiness of the raw sixth field of n1. -/
def getNetworkInfo (n1 n2 : List (List Char)) : Option NetworkInfo :=
  if n1.length = 7 ∧ n2.length = 5 then
    (macDecode (n1.getD 6 [])).map (fun mac =>
      { ip := n1.getD 0 [], gateway := n1.getD 1 [], dns1 := n1.getD 2 [],
        dns2 := n1.getD 3 [], netmask := n1.getD 4 [],
        dhcp := !(n1.getD 5 []).isEmpty, mac := mac,
        postHost := n2.getD 0 [], postPort := n2.getD 1 [],
        postFile := n2.getD 2 [], userAgent := n2.getD 3 [],
        postInterval := n2.getD 4 [] })
  else none

/-- Model type label table of wattsup.getVersionInfo (src/wattsup.py line 94). -/
def versions : List String := ["Standard", "PRO", "ES", ".NET"]

/-- Hardware major label table of wattsup.getVersionInfo (line 95). -/
def hwma : List String := ["ADE7763, PIC18F45J10", "ADE7763, PIC18F45J10, Ethernet"]

/-- Hardware minor label table of wattsup.getVersionInfo (line 96). -/
def hwmi : List String := ["no USB", "USB @ 19200bps", "USB @ 115200bps", "Ethernet"]

/-- Embedding of Python list indexing: nonnegative indices address from the
front, negative indices at least minus the length address from the back,
and anything else raises IndexError (modelled as none). -/
def pyIndex {α : Type} (l : List α) (i : Int) : Option α :=
  if h : 0 ≤ i ∧ i < (l.length : Int) then
    some (l.get ⟨i.toNat, by omega⟩)
  else if h : -(l.length : Int) ≤ i ∧ i < 0 then
    some (l.get ⟨((l.length : Int) + i).toNat, by omega⟩)
  else none

/-- Gregorian leap year test, as used by the Python datetime module. -/
def isLeap (y : Nat) : Bool := (y % 4 = 0 ∧ y % 100 ≠ 0) ∨ y % 400 = 0

/-- Number of days in a month of a given year. -/
def daysInMonth (y m : Nat) : Nat :=
  if m = 2 then (if isLeap y then 29 else 28)
  else if m = 4 ∨ m = 6 ∨ m = 9 ∨ m = 11 then 30
  else 31

/-- A calendar timestamp as validated by datetime.strptime. -/
structure Timestamp where
  year : Nat
  month : Nat
  day : Nat
  hour : Nat
  minute : Nat
  second : Nat
deriving DecidableEq

/-- Embedding of datetime.strptime with the YYYYMMDDHHMMSS format on a
fourteen-digit string: fixed-width digit groups, each range-checked as the
datetime constructor does. -/
def parseTimestamp (s : List Char) : Option Timestamp :=
  if s.length = 14 ∧ s.all Char.isDigit then
    let y := natOfDigits (s.take 4)
    let mo := natOfDigits ((s.drop 4).take 2)
    let d := natOfDigits ((s.drop 6).take 2)
    let h := natOfDigits ((s.drop 8).take 2)
    let mi := natOfDigits ((s.drop 10).take 2)
    let se := natOfDigits ((s.drop 12).take 2)
    if 1 ≤ y ∧ 1 ≤ mo ∧ mo ≤ 12 ∧ 1 ≤ d ∧ d ≤ daysInMonth y mo ∧
        h ≤ 23 ∧ mi ≤ 59 ∧ se ≤ 59 then
      some ⟨y, mo, d, h, mi, se⟩
    else none
  else none

/-- The version report assembled by wattsup.getVersionInfo
(src/wattsup.py lines 93-106), as a structured record. -/
structure VersionInfo where
  modelType : String
  memory : List Char
  hardwareMajor : String
  hardwareMinor : String
  firmwareMajor : List Char
  firmwareMinor : List Char
  compileTime : Timestamp
deriving DecidableEq

/-- Embedding of wattsup.getVersionInfo (src/wattsup.py lines 81-106) on an
accepted response field list: requires exactly 8 fields, parses the compile
timestamp, and resolves the three coded fields through the label tables
with Python list-indexing semantics, in source evaluation order. -/
def getVersionInfo (f : List (List Char)) : Option VersionInfo :=
  if f.length = 8 then do
    let ts ← parseTimestamp (f.getD 6 [])
    let mCode ← pyInt (f.getD 0 [])
    let model ← pyIndex versions mCode
    let hCode ← pyInt (f.getD 2 [])
    let hwMajor ← pyIndex hwma (hCode - 5)
    let lCode ← pyInt (f.getD 3 [])
    let hwMinor ← pyIndex hwmi lCode
    some ⟨model, f.getD 1 [], hwMajor, hwMinor, f.getD 4 [], f.getD 5 [], ts⟩
  else none

/-- Sequencing of a list of optional results: some of the list of values
when every element is some, none as soon as one is none. This renders the
Python behavior that the first failing conversion raises. -/
def optList {α : Type} : List (Option α) → Option (List α)
  | [] => some []
  | o :: os =>
    match o, optList os with
    | some a, some as => some (a :: as)
    | _, _ => none

/-- Embedding of the measurement list m built by wattsup.log
(src/wattsup.py lines 168-180) from the parsed field values of a data
line: a Python IndexError on a short line is modelled as none, a failing
float conversion likewise. The arithmetic is written exactly as in the
source. -/
def logRecord (now : Int) (vals : List (List Char)) : Option (List (String × ℚ)) :=
  if 11 ≤ vals.length then
    match optList [pyFloat (vals.getD 0 []), pyFloat (vals.getD 1 []),
                   pyFloat (vals.getD 2 []), pyFloat (vals.getD 3 []),
                   pyFloat (vals.getD 4 []), pyFloat (vals.getD 5 []),
                   pyFloat (vals.getD 6 []), pyFloat (vals.getD 7 []),
                   pyFloat (vals.getD 8 []), pyFloat (vals.getD 9 []),
                   pyFloat (vals.getD 10 [])] with
    | none => none
    | some xs =>
      some [("time", (now : ℚ)),
            ("watts", xs.getD 0 0 / 10),
            ("volts", xs.getD 1 0 / 10),
            ("amps", xs.getD 2 0 / 10),
            ("watt-hours", xs.getD 3 0 / 10),
            ("dollars", xs.getD 4 0 / 1000),
            ("watt hours monthly", xs.getD 5 0),
            ("dollars monthly", xs.getD 6 0 * 10),
            ("power factor", xs.getD 7 0),
            ("duty cycle", xs.getD 8 0),
            ("power cycle", xs.getD 9 0),
            ("frequency", xs.getD 10 0 / 10),
            ("volt-amps", xs.getD 10 0 / 10)]
  else none

/-- One iteration of the wattsup.log loop body (src/wattsup.py lines
162-180): only lines tagged with a hash and d are parsed, splitting off
the part before the first semicolon, splitting on commas and dropping the
three leading positional fields. -/
def logStep (now : Int) (l : List Char) : Option (List (String × ℚ)) :=
  if l.take 2 = ['#', 'd'] then
    logRecord now ((pySplit ',' ((pySplit ';' l).headD [])).drop 3)
  else none

/-- The sequence of numeric values written by the raw renderer of
wattsup.log (lines 182-188): the value of each entry in order. -/
def renderRaw (m : List (String × ℚ)) : List ℚ := m.map Prod.snd

/-- The value-label pairs written by the pretty renderer of wattsup.log
(lines 190-196): each entry as value then label, in order. -/
def renderPretty (m : List (String × ℚ)) : List (ℚ × String) :=
  m.map (fun p => (p.2, p.1))

/-- Lookup in the Python dict built from an association list, as the json
renderer of wattsup.log (line 199) does with dict(m): a later binding of a
key overrides an earlier one. -/
def pyDictLookup (m : List (String × ℚ)) (k : String) : Option ℚ :=
  m.reverse.lookup k

/-- An HTTP response as produced by the BaseHTTPRequestHandler calls in
server.py: status, content type and literal body. -/
structure HttpResponse where
  status : Nat
  contentType : String
  body : String
deriving DecidableEq

/-- A JSON scalar value of the record printed by server.py: the device id
stays a string, every other field is numeric. -/
inductive JVal where
  | str (s : List Char)
  | num (q : ℚ)
deriving DecidableEq

/-- Embedding of urlparse.parse_qs on the bodies at issue: split on
ampersands, then each pair on its first equals sign; pairs without an
equals sign or with an empty value are dropped. -/
def parseQSPairs (body : List Char) : List (List Char × List Char) :=
  (pySplit '&' body).filterMap (fun kv =>
    match pySplit '=' kv with
    | [] => none
    | [_] => none
    | k :: vs =>
      let v := List.intercalate ['='] vs
      if v = [] then none else some (k, v))

/-- First value bound to a key in a parsed url-encoded body, as
data[key][0] reads it in server.py. -/
def qsLookup (body : List Char) (k : List Char) : Option (List Char) :=
  (parseQSPairs body).lookup k

/-- Embedding of myHandler.handle (src/server.py lines 15-59) after the
body has been read: look up the fifteen required keys, convert every
field but the device id with float, and build the measurement list m (a
missing key or a failing conversion is the unhandled Python error,
modelled as none), then answer 200, text/html, body [0]. -/
def handle (now : Int) (body : List Char) : Option (List (String × JVal) × HttpResponse) :=
  match optList [qsLookup body "id".data, qsLookup body "w".data,
                 qsLookup body "v".data, qsLookup body "a".data,
                 qsLookup body "wh".data, qsLookup body "wmx".data,
                 qsLookup body "vmx".data, qsLookup body "amx".data,
                 qsLookup body "wmi".data, qsLookup body "vmi".data,
                 qsLookup body "ami".data, qsLookup body "pf".data,
                 qsLookup body "pcy".data, qsLookup body "frq".data,
                 qsLookup body "va".data] with
  | none => none
  | some raw =>
    match optList ((raw.drop 1).map pyFloat) with
    | none => none
    | some q =>
      some ([("time", JVal.num (now : ℚ)),
             ("id", JVal.str (raw.getD 0 [])),
             ("watts", JVal.num (q.getD 0 0 / 10)),
             ("volts", JVal.num (q.getD 1 0 / 10)),
             ("amps", JVal.num (q.getD 2 0 / 10)),
             ("watt-hours", JVal.num (q.getD 3 0 / 10)),
             ("max watts", JVal.num (q.getD 4 0 / 10)),
             ("max volts", JVal.num (q.getD 5 0 / 10)),
             ("max amps", JVal.num (q.getD 6 0 / 10)),
             ("min watts", JVal.num (q.getD 7 0 / 10)),
             ("min volts", JVal.num (q.getD 8 0 / 10)),
             ("min amps", JVal.num (q.getD 9 0 / 10)),
             ("power factor", JVal.num (q.getD 10 0)),
             ("power cycle", JVal.num (q.getD 11 0)),
             ("frequency", JVal.num (q.getD 12 0 / 10)),
             ("volt-amps", JVal.num (q.getD 13 0 / 10))],
            ⟨200, "text/html", "[0]"⟩)

/-- One interaction with the serial device: a command write or a discarded
readline. -/
inductive SerialEvent where
  | write (cmd : List Char)
  | readLine
deriving DecidableEq

/-- Outcome of wattsup.setNetworkExtended: either a process exit with a
status code, or completion; both carry the serial events performed. -/
inductive SNEResult where
  | exited (code : Nat) (events : List SerialEvent)
  | completed (events : List SerialEvent)
deriving DecidableEq

/-- The fixed user agent constant of src/wattsup.py line 33. -/
def USER_AGENT : List Char := "WattsUp.NET".data

/-- Decimal rendering of an integer, for the format call on int(interval). -/
def intRepr (i : Int) : List Char := (toString i).data

/-- The formatted set-network command of src/wattsup.py line 40 with the
five arguments of line 212 substituted. -/
def setNetworkCmd (url port pfile agent : List Char) (interval : Int) : List Char :=
  "#I,X,5,".data ++
    List.intercalate [','] [url, port, pfile, agent, intRepr interval] ++ [';']

/-- The commit command of src/wattsup.py line 41. -/
def writeNetworkCmd : List Char := "#I,W,0;".data

/-- Embedding of wattsup.setNetworkExtended (src/wattsup.py lines
204-217): length validation of the url and the post file, then the write,
readline, commit write, readline sequence. -/
def setNetworkExtended (url port pfile : List Char) (interval : Int) : SNEResult :=
  if url.length > 40 then .exited 1 []
  else if pfile.length > 40 then .exited 1 []
  else .completed [.write (setNetworkCmd url port pfile USER_AGENT interval),
                   .readLine,
                   .write writeNetworkCmd,
                   .readLine]

/-! Helper lemmas about the splitting and indexing primitives. -/

theorem pySplit_ne_nil (c : Char) (l : List Char) : pySplit c l ≠ [] := by
  induction l with
  | nil => simp [pySplit]
  | cons x xs ih =>
    simp only [pySplit]
    split
    · simp
    · cases h : pySplit c xs with
      | nil => simp
      | cons y ys => simp

theorem pySplit_of_not_mem (c : Char) (l : List Char) (h : c ∉ l) :
    pySplit c l = [l] := by
  induction l with
  | nil => rfl
  | cons x xs ih =>
    simp only [List.mem_cons, not_or] at h
    simp only [pySplit]
    rw [if_neg (fun hx => h.1 hx.symm), ih h.2]

theorem pySplit_append_sep (c : Char) (l r : List Char) (h : c ∉ l) :
    pySplit c (l ++ c :: r) = l :: pySplit c r := by
  induction l with
  | nil => simp [pySplit]
  | cons x xs ih =>
    simp only [List.mem_cons, not_or] at h
    have hx : ¬ (x = c) := fun hx => h.1 hx.symm
    simp only [List.cons_append, pySplit, if_neg hx, List.append_eq, ih h.2]

theorem pySplit_intercalate (c : Char) (parts : List (List Char))
    (hne : parts ≠ []) (h : ∀ p ∈ parts, c ∉ p) :
    pySplit c (List.intercalate [c] parts) = parts := by
  induction parts with
  | nil => exact absurd rfl hne
  | cons p ps ih =>
    cases ps with
    | nil =>
      have hp : List.intercalate [c] [p] = p := by
        simp [List.intercalate, List.intersperse]
      rw [hp]
      exact pySplit_of_not_mem c p (h p (by simp))
    | cons q qs =>
      have hp : c ∉ p := h p (List.mem_cons_self _ _)
      have hrest : ∀ x ∈ q :: qs, c ∉ x := fun x hx => h x (List.mem_cons_of_mem _ hx)
      have step : List.intercalate [c] (p :: q :: qs) =
          p ++ c :: List.intercalate [c] (q :: qs) := by
        simp [List.intercalate, List.intersperse]
      rw [step, pySplit_append_sep c p _ hp, ih (by simp) hrest]

theorem not_mem_intercalate (c d : Char) (hcd : c ≠ d)
    (parts : List (List Char)) (h : ∀ p ∈ parts, c ∉ p) :
    c ∉ List.intercalate [d] parts := by
  induction parts with
  | nil => simp [List.intercalate, List.intersperse]
  | cons p ps ih =>
    cases ps with
    | nil =>
      have hp : List.intercalate [d] [p] = p := by
        simp [List.intercalate, List.intersperse]
      rw [hp]
      exact h p (by simp)
    | cons q qs =>
      have step : List.intercalate [d] (p :: q :: qs) =
          p ++ d :: List.intercalate [d] (q :: qs) := by
        simp [List.intercalate, List.intersperse]
      rw [step]
      intro hmem
      rcases List.mem_append.mp hmem with hl | hr
      · exact h p (by simp) hl
      · rcases List.mem_cons.mp hr with he | ht
        · exact hcd he
        · exact ih (fun x hx => h x (List.mem_cons_of_mem _ hx)) ht

theorem pyIndex_isSome {α : Type} (l : List α) (i : Int) :
    (pyIndex l i).isSome = true ↔ -(l.length : Int) ≤ i ∧ i < (l.length : Int) := by
  unfold pyIndex
  split
  · rename_i h
    simp only [Option.isSome_some, true_iff]
    omega
  · split
    · rename_i h1 h2
      simp only [Option.isSome_some, true_iff]
      omega
    · rename_i h1 h2
      simp only [Option.isSome_none, Bool.false_eq_true, false_iff]
      omega

/-! Claim C6. -/

/-- C6: for every header response line of the form tag,x,y,col1,...,coln
followed by a semicolon and arbitrary trailing text, where the tag is the
two characters hash and h and no field contains a comma or a semicolon,
getHeader returns exactly the ordered column list: the comma-split fields
of the portion before the first semicolon with the first three positional
fields skipped. -/
theorem getHeader_returns_columns (x y : List Char) (cols : List (List Char))
    (rest : List Char)
    (hx : ',' ∉ x ∧ ';' ∉ x) (hy : ',' ∉ y ∧ ';' ∉ y)
    (hcols : ∀ col ∈ cols, ',' ∉ col ∧ ';' ∉ col) :
    getHeader (List.intercalate [','] (['#', 'h'] :: x :: y :: cols) ++ ';' :: rest)
      = cols := by
  have hparts : ∀ p ∈ ['#', 'h'] :: x :: y :: cols, ',' ∉ p := by
    intro p hp
    simp only [List.mem_cons] at hp
    rcases hp with rfl | rfl | rfl | hp
    · decide
    · exact hx.1
    · exact hy.1
    · exact (hcols p hp).1
  have hparts2 : ∀ p ∈ ['#', 'h'] :: x :: y :: cols, ';' ∉ p := by
    intro p hp
    simp only [List.mem_cons] at hp
    rcases hp with rfl | rfl | rfl | hp
    · decide
    · exact hx.2
    · exact hy.2
    · exact (hcols p hp).2
  have hs : ';' ∉ List.intercalate [','] (['#', 'h'] :: x :: y :: cols) :=
    not_mem_intercalate ';' ',' (by decide) _ hparts2
  unfold getHeader
  rw [pySplit_append_sep ';' _ rest hs]
  simp only [List.headD_cons]
  rw [pySplit_intercalate ',' _ (by simp) hparts]
  rfl

/-- Witness for C6 at a concrete header line with columns W, V, A. -/
theorem getHeader_returns_columns_witness :
    getHeader (List.intercalate [','] (['#', 'h'] :: ['0'] :: ['1'] ::
        [['W'], ['V'], ['A']]) ++ ';' :: ['\r']) = [['W'], ['V'], ['A']] :=
  getHeader_returns_columns ['0'] ['1'] [['W'], ['V'], ['A']] ['\r']
    (by decide) (by decide) (by decide)

/-! Claim C7. -/

/-- C7: getNetworkInfo decodes the hex-encoded MAC address field into
colon-separated lowercase byte pairs: the hex string 0A1B2C3D4E5F decodes
to 0a:1b:2c:3d:4e:5f. -/
theorem macDecode_example :
    macDecode "0A1B2C3D4E5F".data = some "0a:1b:2c:3d:4e:5f".data := by decide

/-! Claim C10. -/

/-- C10: for every accepted basic network response, getNetworkInfo reports
the DHCP flag as the truthiness of the raw field string: the flag is true
exactly when the sixth field is non-empty, so any non-empty field,
including the string 0, is reported as true. -/
theorem getNetworkInfo_dhcp_truthiness (n1 n2 : List (List Char))
    (r : NetworkInfo) (h : getNetworkInfo n1 n2 = some r) :
    r.dhcp = true ↔ n1.getD 5 [] ≠ [] := by
  unfold getNetworkInfo at h
  split at h
  · rcases hm : macDecode (n1.getD 6 []) with _ | mac
    · rw [hm] at h; simp at h
    · rw [hm] at h
      simp only [Option.map_some', Option.some.injEq] at h
      rw [← h]
      simp
  · simp at h

/-- Witness for C10: a basic response whose DHCP field is the string 0 is
reported as DHCP true. -/
theorem getNetworkInfo_dhcp_truthiness_witness :
    getNetworkInfo [['1'], ['2'], ['3'], ['4'], ['5'], ['0'], ['0', 'A']]
        [['h'], ['p'], ['f'], ['u'], ['9']] =
      some { ip := ['1'], gateway := ['2'], dns1 := ['3'], dns2 := ['4'],
             netmask := ['5'], dhcp := true, mac := ['0', 'a'],
             postHost := ['h'], postPort := ['p'], postFile := ['f'],
             userAgent := ['u'], postInterval := ['9'] } ∧
    ({ ip := ['1'], gateway := ['2'], dns1 := ['3'], dns2 := ['4'],
       netmask := ['5'], dhcp := true, mac := ['0', 'a'],
       postHost := ['h'], postPort := ['p'], postFile := ['f'],
       userAgent := ['u'], postInterval := ['9'] } : NetworkInfo).dhcp = true :=
  ⟨by decide,
   (getNetworkInfo_dhcp_truthiness
      [['1'], ['2'], ['3'], ['4'], ['5'], ['0'], ['0', 'A']]
      [['h'], ['p'], ['f'], ['u'], ['9']] _ (by decide)).mpr (by decide)⟩

/-! Claim C5. -/

/-- C5: if the POST URL argument to setNetworkExtended is longer than 40
characters, or the POST-file string is, the process exits with status 1
before any serial traffic; otherwise the formatted set-network command is
written, one acknowledgement line read and discarded, the commit command
written, and its acknowledgement read and discarded. -/
theorem setNetworkExtended_behavior (url port pfile : List Char) (interval : Int) :
    setNetworkExtended url port pfile interval =
      if url.length > 40 ∨ pfile.length > 40 then SNEResult.exited 1 []
      else SNEResult.completed
        [SerialEvent.write (setNetworkCmd url port pfile USER_AGENT interval),
         SerialEvent.readLine,
         SerialEvent.write writeNetworkCmd,
         SerialEvent.readLine] := by
  unfold setNetworkExtended
  by_cases h1 : url.length > 40
  · rw [if_pos h1, if_pos (Or.inl h1)]
  · rw [if_neg h1]
    by_cases h2 : pfile.length > 40
    · rw [if_pos h2, if_pos (Or.inr h2)]
    · rw [if_neg h2, if_neg (by tauto)]

/-! Claim C9. -/

/-- C9 counterexample: an accepted 8-field version response whose
model-type code is -1 — outside the claimed range 0..3 — on which
getVersionInfo nevertheless succeeds, because Python list indexing
accepts negative indices down to minus the list length. -/
theorem getVersionInfo_negative_code_cex :
    pyInt ([['-', '1'], ['4', '0', '9', '6'], ['5'], ['0'], ['1'], ['2'],
        "20110101000000".data, ['0']].getD 0 []) = some (-1) ∧
    (getVersionInfo [['-', '1'], ['4', '0', '9', '6'], ['5'], ['0'], ['1'], ['2'],
        "20110101000000".data, ['0']]).isSome = true := by
  constructor
  · decide
  · decide

theorem isSome_bind {α β : Type} (o : Option α) (f : α → Option β) :
    (o.bind f).isSome = true ↔ ∃ a, o = some a ∧ (f a).isSome = true := by
  cases o <;> simp

/-- C9 amended: an accepted 8-field version response whose coded fields
parse as integers and whose seventh field parses as a YYYYMMDDHHMMSS
timestamp makes getVersionInfo return without an out-of-range lookup
exactly when the model-type code lies in -4..3, the hardware-major code
in 3..6, and the hardware-minor code in -4..3: Python list indexing also
accepts negative indices addressing the tables from the back. -/
theorem getVersionInfo_code_ranges (f : List (List Char)) (m hc lc : Int)
    (ts : Timestamp)
    (hlen : f.length = 8)
    (hm : pyInt (f.getD 0 []) = some m)
    (hh : pyInt (f.getD 2 []) = some hc)
    (hl : pyInt (f.getD 3 []) = some lc)
    (hts : parseTimestamp (f.getD 6 []) = some ts) :
    (getVersionInfo f).isSome = true ↔
      ((-4 ≤ m ∧ m < 4) ∧ (3 ≤ hc ∧ hc < 7) ∧ (-4 ≤ lc ∧ lc < 4)) := by
  have e1 : (pyIndex versions m).isSome = true ↔ (-4 ≤ m ∧ m < 4) := by
    rw [pyIndex_isSome]
    simp only [versions, List.length_cons, List.length_nil]
    omega
  have e2 : (pyIndex hwma (hc - 5)).isSome = true ↔ (3 ≤ hc ∧ hc < 7) := by
    rw [pyIndex_isSome]
    simp only [hwma, List.length_cons, List.length_nil]
    omega
  have e3 : (pyIndex hwmi lc).isSome = true ↔ (-4 ≤ lc ∧ lc < 4) := by
    rw [pyIndex_isSome]
    simp only [hwmi, List.length_cons, List.length_nil]
    omega
  unfold getVersionInfo
  rw [if_pos hlen]
  simp only [hts, hm, hh, hl, Option.bind_eq_bind, Option.some_bind]
  simp only [isSome_bind, Option.isSome_some, and_true]
  constructor
  · rintro ⟨a, ha, b, hb, c, hcc⟩
    exact ⟨e1.mp (by simp [ha]), e2.mp (by simp [hb]), e3.mp (by simp [hcc])⟩
  · rintro ⟨r1, r2, r3⟩
    obtain ⟨a, ha⟩ := Option.isSome_iff_exists.mp (e1.mpr r1)
    obtain ⟨b, hb⟩ := Option.isSome_iff_exists.mp (e2.mpr r2)
    obtain ⟨c, hcc⟩ := Option.isSome_iff_exists.mp (e3.mpr r3)
    exact ⟨a, ha, b, hb, c, hcc⟩

/-- Witness for C9 at a version response with model code 0, hardware
major code 5, hardware minor code 1 and compile timestamp 2011-01-01. -/
theorem getVersionInfo_code_ranges_witness :
    (getVersionInfo [['0'], ['1'], ['5'], ['1'], ['1'], ['2'],
        "20110101000000".data, ['0']]).isSome = true ↔
      ((-4 ≤ (0 : Int) ∧ (0 : Int) < 4) ∧ (3 ≤ (5 : Int) ∧ (5 : Int) < 7) ∧
        (-4 ≤ (1 : Int) ∧ (1 : Int) < 4)) :=
  getVersionInfo_code_ranges
    [['0'], ['1'], ['5'], ['1'], ['1'], ['2'], "20110101000000".data, ['0']]
    0 5 1 ⟨2011, 1, 1, 0, 0, 0⟩ (by decide) (by decide) (by decide) (by decide)
    (by decide)

theorem logRecord_inv (now : Int) (vals : List (List Char))
    (rec : List (String × ℚ)) (h : logRecord now vals = some rec) :
    11 ≤ vals.length ∧
    ∃ xs, optList [pyFloat (vals.getD 0 []), pyFloat (vals.getD 1 []),
        pyFloat (vals.getD 2 []), pyFloat (vals.getD 3 []),
        pyFloat (vals.getD 4 []), pyFloat (vals.getD 5 []),
        pyFloat (vals.getD 6 []), pyFloat (vals.getD 7 []),
        pyFloat (vals.getD 8 []), pyFloat (vals.getD 9 []),
        pyFloat (vals.getD 10 [])] = some xs ∧
      rec = [("time", (now : ℚ)),
             ("watts", xs.getD 0 0 / 10),
             ("volts", xs.getD 1 0 / 10),
             ("amps", xs.getD 2 0 / 10),
             ("watt-hours", xs.getD 3 0 / 10),
             ("dollars", xs.getD 4 0 / 1000),
             ("watt hours monthly", xs.getD 5 0),
             ("dollars monthly", xs.getD 6 0 * 10),
             ("power factor", xs.getD 7 0),
             ("duty cycle", xs.getD 8 0),
             ("power cycle", xs.getD 9 0),
             ("frequency", xs.getD 10 0 / 10),
             ("volt-amps", xs.getD 10 0 / 10)] := by
  unfold logRecord at h
  by_cases hlen : 11 ≤ vals.length
  · rw [if_pos hlen] at h
    refine ⟨hlen, ?_⟩
    rcases ho : optList [pyFloat (vals.getD 0 []), pyFloat (vals.getD 1 []),
        pyFloat (vals.getD 2 []), pyFloat (vals.getD 3 []),
        pyFloat (vals.getD 4 []), pyFloat (vals.getD 5 []),
        pyFloat (vals.getD 6 []), pyFloat (vals.getD 7 []),
        pyFloat (vals.getD 8 []), pyFloat (vals.getD 9 []),
        pyFloat (vals.getD 10 [])] with _ | xs
    · rw [ho] at h
      simp at h
    · rw [ho] at h
      simp only [Option.some.injEq] at h
      exact ⟨xs, rfl, h.symm⟩
  · rw [if_neg hlen] at h
    simp at h

/-! Claim C1. -/

/-- C1: for every data line with the documented field count whose fields
convert, each emitted value of the measurement list equals the raw field
value divided by that field's divisor from the fixed per-field map: 10
for watts, volts, amps, watt-hours, frequency and volt-amps, 1000 for
dollars, 1 for watt hours monthly, power factor, duty cycle and power
cycle, and one tenth for dollars monthly. -/
theorem logRecord_divisors (now : Int) (vals : List (List Char))
    (x0 x1 x2 x3 x4 x5 x6 x7 x8 x9 x10 : ℚ)
    (hlen : 11 ≤ vals.length)
    (hx : optList [pyFloat (vals.getD 0 []), pyFloat (vals.getD 1 []),
        pyFloat (vals.getD 2 []), pyFloat (vals.getD 3 []),
        pyFloat (vals.getD 4 []), pyFloat (vals.getD 5 []),
        pyFloat (vals.getD 6 []), pyFloat (vals.getD 7 []),
        pyFloat (vals.getD 8 []), pyFloat (vals.getD 9 []),
        pyFloat (vals.getD 10 [])] =
      some [x0, x1, x2, x3, x4, x5, x6, x7, x8, x9, x10]) :
    logRecord now vals =
      some [("time", (now : ℚ)),
            ("watts", x0 / 10),
            ("volts", x1 / 10),
            ("amps", x2 / 10),
            ("watt-hours", x3 / 10),
            ("dollars", x4 / 1000),
            ("watt hours monthly", x5 / 1),
            ("dollars monthly", x6 / (1 / 10)),
            ("power factor", x7 / 1),
            ("duty cycle", x8 / 1),
            ("power cycle", x9 / 1),
            ("frequency", x10 / 10),
            ("volt-amps", x10 / 10)] := by
  unfold logRecord
  rw [if_pos hlen, hx]
  have hd : ∀ q : ℚ, q / (1 / 10) = q * 10 := fun q => by
    rw [one_div, div_eq_mul_inv, inv_inv]
  simp [List.getD_cons_zero, List.getD_cons_succ, div_one, hd]

/-- Witness for C1 at a concrete data line with integer fields. -/
theorem logRecord_divisors_witness :
    logRecord 5 (["10", "20", "30", "40", "50", "60", "70", "80", "90",
        "100", "110"].map String.data) =
      some [("time", ((5 : Int) : ℚ)),
            ("watts", (10 : ℚ) / 10),
            ("volts", (20 : ℚ) / 10),
            ("amps", (30 : ℚ) / 10),
            ("watt-hours", (40 : ℚ) / 10),
            ("dollars", (50 : ℚ) / 1000),
            ("watt hours monthly", (60 : ℚ) / 1),
            ("dollars monthly", (70 : ℚ) / (1 / 10)),
            ("power factor", (80 : ℚ) / 1),
            ("duty cycle", (90 : ℚ) / 1),
            ("power cycle", (100 : ℚ) / 1),
            ("frequency", (110 : ℚ) / 10),
            ("volt-amps", (110 : ℚ) / 10)] :=
  logRecord_divisors 5
    (["10", "20", "30", "40", "50", "60", "70", "80", "90", "100", "110"].map
      String.data)
    10 20 30 40 50 60 70 80 90 100 110 (by decide) (by decide)

/-! Claim C8. -/

/-- C8: in every measurement list the log loop emits, the volt-amps value
equals the frequency value — both derive from the eleventh data field
divided by 10 — and the record is already determined by the first eleven
fields, so the twelfth data field is never read. -/
theorem logRecord_voltamps_eq_frequency (now : Int) (vals : List (List Char))
    (rec : List (String × ℚ)) (h : logRecord now vals = some rec) :
    List.lookup "volt-amps" rec = List.lookup "frequency" rec ∧
    logRecord now (vals.take 11) = some rec := by
  obtain ⟨hlen, xs, ho, hrec⟩ := logRecord_inv now vals rec h
  subst hrec
  constructor
  · simp [List.lookup]
  · have hg : ∀ i : Nat, i < 11 →
        (vals.take 11).getD i ([] : List Char) = vals.getD i [] := by
      intro i hi
      simp [List.getD_eq_getElem?_getD, List.getElem?_take, hi]
    unfold logRecord
    rw [if_pos (by simp only [List.length_take]; omega)]
    rw [hg 0 (by norm_num), hg 1 (by norm_num), hg 2 (by norm_num),
        hg 3 (by norm_num), hg 4 (by norm_num), hg 5 (by norm_num),
        hg 6 (by norm_num), hg 7 (by norm_num), hg 8 (by norm_num),
        hg 9 (by norm_num), hg 10 (by norm_num), ho]

/-- Witness for C8 at a twelve-field data line: the record ignores the
twelfth field and reports volt-amps equal to frequency. -/
theorem logRecord_voltamps_eq_frequency_witness :
    List.lookup "volt-amps"
        [("time", ((5 : Int) : ℚ)),
         ("watts", (10 : ℚ) / 10), ("volts", (20 : ℚ) / 10),
         ("amps", (30 : ℚ) / 10), ("watt-hours", (40 : ℚ) / 10),
         ("dollars", (50 : ℚ) / 1000), ("watt hours monthly", (60 : ℚ)),
         ("dollars monthly", (70 : ℚ) * 10), ("power factor", (80 : ℚ)),
         ("duty cycle", (90 : ℚ)), ("power cycle", (100 : ℚ)),
         ("frequency", (110 : ℚ) / 10), ("volt-amps", (110 : ℚ) / 10)] =
      List.lookup "frequency"
        [("time", ((5 : Int) : ℚ)),
         ("watts", (10 : ℚ) / 10), ("volts", (20 : ℚ) / 10),
         ("amps", (30 : ℚ) / 10), ("watt-hours", (40 : ℚ) / 10),
         ("dollars", (50 : ℚ) / 1000), ("watt hours monthly", (60 : ℚ)),
         ("dollars monthly", (70 : ℚ) * 10), ("power factor", (80 : ℚ)),
         ("duty cycle", (90 : ℚ)), ("power cycle", (100 : ℚ)),
         ("frequency", (110 : ℚ) / 10), ("volt-amps", (110 : ℚ) / 10)] ∧
    logRecord 5 ((["10", "20", "30", "40", "50", "60", "70", "80", "90",
        "100", "110", "120"].map String.data).take 11) =
      some [("time", ((5 : Int) : ℚ)),
            ("watts", (10 : ℚ) / 10), ("volts", (20 : ℚ) / 10),
            ("amps", (30 : ℚ) / 10), ("watt-hours", (40 : ℚ) / 10),
            ("dollars", (50 : ℚ) / 1000), ("watt hours monthly", (60 : ℚ)),
            ("dollars monthly", (70 : ℚ) * 10), ("power factor", (80 : ℚ)),
            ("duty cycle", (90 : ℚ)), ("power cycle", (100 : ℚ)),
            ("frequency", (110 : ℚ) / 10), ("volt-amps", (110 : ℚ) / 10)] :=
  logRecord_voltamps_eq_frequency 5
    (["10", "20", "30", "40", "50", "60", "70", "80", "90", "100", "110",
      "120"].map String.data)
    [("time", ((5 : Int) : ℚ)),
     ("watts", (10 : ℚ) / 10), ("volts", (20 : ℚ) / 10),
     ("amps", (30 : ℚ) / 10), ("watt-hours", (40 : ℚ) / 10),
     ("dollars", (50 : ℚ) / 1000), ("watt hours monthly", (60 : ℚ)),
     ("dollars monthly", (70 : ℚ) * 10), ("power factor", (80 : ℚ)),
     ("duty cycle", (90 : ℚ)), ("power cycle", (100 : ℚ)),
     ("frequency", (110 : ℚ) / 10), ("volt-amps", (110 : ℚ) / 10)]
    (by rfl)

/-! Claim C2. -/

/-- C2: for every measurement list the log loop emits, the raw, pretty and
json renderers carry the same rescaled numeric values: pretty pairs each
raw value with its label in record order, and the json object built like
dict(m) maps the k-th label back to the k-th raw CSV field, so parsing
the json line yields a mapping whose values equal the raw fields in the
same order. -/
theorem renderers_consistent (now : Int) (vals : List (List Char))
    (rec : List (String × ℚ)) (h : logRecord now vals = some rec) :
    (renderPretty rec).map Prod.fst = renderRaw rec ∧
    (renderPretty rec).map Prod.snd = rec.map Prod.fst ∧
    rec.map (fun p => pyDictLookup rec p.1) = (renderRaw rec).map some := by
  obtain ⟨hlen, xs, ho, hrec⟩ := logRecord_inv now vals rec h
  subst hrec
  refine ⟨?_, ?_, ?_⟩
  · simp [renderPretty, renderRaw]
  · simp [renderPretty]
  · simp [renderRaw, pyDictLookup, List.lookup]

/-- Witness for C2 at a concrete data line: the three renderers of the
resulting record agree and the json mapping returns the raw fields in
order. -/
theorem renderers_consistent_witness :
    (renderPretty
        [("time", ((9 : Int) : ℚ)),
         ("watts", (15 : ℚ) / 10), ("volts", (25 : ℚ) / 10),
         ("amps", (35 : ℚ) / 10), ("watt-hours", (45 : ℚ) / 10),
         ("dollars", (55 : ℚ) / 1000), ("watt hours monthly", (65 : ℚ)),
         ("dollars monthly", (75 : ℚ) * 10), ("power factor", (85 : ℚ)),
         ("duty cycle", (95 : ℚ)), ("power cycle", (105 : ℚ)),
         ("frequency", (115 : ℚ) / 10), ("volt-amps", (115 : ℚ) / 10)]).map
      Prod.fst =
      renderRaw
        [("time", ((9 : Int) : ℚ)),
         ("watts", (15 : ℚ) / 10), ("volts", (25 : ℚ) / 10),
         ("amps", (35 : ℚ) / 10), ("watt-hours", (45 : ℚ) / 10),
         ("dollars", (55 : ℚ) / 1000), ("watt hours monthly", (65 : ℚ)),
         ("dollars monthly", (75 : ℚ) * 10), ("power factor", (85 : ℚ)),
         ("duty cycle", (95 : ℚ)), ("power cycle", (105 : ℚ)),
         ("frequency", (115 : ℚ) / 10), ("volt-amps", (115 : ℚ) / 10)] ∧
    (renderPretty
        [("time", ((9 : Int) : ℚ)),
         ("watts", (15 : ℚ) / 10), ("volts", (25 : ℚ) / 10),
         ("amps", (35 : ℚ) / 10), ("watt-hours", (45 : ℚ) / 10),
         ("dollars", (55 : ℚ) / 1000), ("watt hours monthly", (65 : ℚ)),
         ("dollars monthly", (75 : ℚ) * 10), ("power factor", (85 : ℚ)),
         ("duty cycle", (95 : ℚ)), ("power cycle", (105 : ℚ)),
         ("frequency", (115 : ℚ) / 10), ("volt-amps", (115 : ℚ) / 10)]).map
      Prod.snd =
      List.map Prod.fst
        [("time", ((9 : Int) : ℚ)),
         ("watts", (15 : ℚ) / 10), ("volts", (25 : ℚ) / 10),
         ("amps", (35 : ℚ) / 10), ("watt-hours", (45 : ℚ) / 10),
         ("dollars", (55 : ℚ) / 1000), ("watt hours monthly", (65 : ℚ)),
         ("dollars monthly", (75 : ℚ) * 10), ("power factor", (85 : ℚ)),
         ("duty cycle", (95 : ℚ)), ("power cycle", (105 : ℚ)),
         ("frequency", (115 : ℚ) / 10), ("volt-amps", (115 : ℚ) / 10)] ∧
    List.map
      (fun p => pyDictLookup
        [("time", ((9 : Int) : ℚ)),
         ("watts", (15 : ℚ) / 10), ("volts", (25 : ℚ) / 10),
         ("amps", (35 : ℚ) / 10), ("watt-hours", (45 : ℚ) / 10),
         ("dollars", (55 : ℚ) / 1000), ("watt hours monthly", (65 : ℚ)),
         ("dollars monthly", (75 : ℚ) * 10), ("power factor", (85 : ℚ)),
         ("duty cycle", (95 : ℚ)), ("power cycle", (105 : ℚ)),
         ("frequency", (115 : ℚ) / 10), ("volt-amps", (115 : ℚ) / 10)] p.1)
      [("time", ((9 : Int) : ℚ)),
       ("watts", (15 : ℚ) / 10), ("volts", (25 : ℚ) / 10),
       ("amps", (35 : ℚ) / 10), ("watt-hours", (45 : ℚ) / 10),
       ("dollars", (55 : ℚ) / 1000), ("watt hours monthly", (65 : ℚ)),
       ("dollars monthly", (75 : ℚ) * 10), ("power factor", (85 : ℚ)),
       ("duty cycle", (95 : ℚ)), ("power cycle", (105 : ℚ)),
       ("frequency", (115 : ℚ) / 10), ("volt-amps", (115 : ℚ) / 10)] =
      (renderRaw
        [("time", ((9 : Int) : ℚ)),
         ("watts", (15 : ℚ) / 10), ("volts", (25 : ℚ) / 10),
         ("amps", (35 : ℚ) / 10), ("watt-hours", (45 : ℚ) / 10),
         ("dollars", (55 : ℚ) / 1000), ("watt hours monthly", (65 : ℚ)),
         ("dollars monthly", (75 : ℚ) * 10), ("power factor", (85 : ℚ)),
         ("duty cycle", (95 : ℚ)), ("power cycle", (105 : ℚ)),
         ("frequency", (115 : ℚ) / 10), ("volt-amps", (115 : ℚ) / 10)]).map
        some :=
  renderers_consistent 9
    (["15", "25", "35", "45", "55", "65", "75", "85", "95", "105",
      "115"].map String.data)
    [("time", ((9 : Int) : ℚ)),
     ("watts", (15 : ℚ) / 10), ("volts", (25 : ℚ) / 10),
     ("amps", (35 : ℚ) / 10), ("watt-hours", (45 : ℚ) / 10),
     ("dollars", (55 : ℚ) / 1000), ("watt hours monthly", (65 : ℚ)),
     ("dollars monthly", (75 : ℚ) * 10), ("power factor", (85 : ℚ)),
     ("duty cycle", (95 : ℚ)), ("power cycle", (105 : ℚ)),
     ("frequency", (115 : ℚ) / 10), ("volt-amps", (115 : ℚ) / 10)]
    (by rfl)

/-! Claim C3. -/

/-- C3: a POST body containing all required keys produces the measurement
record in which the device id passes through unscaled, power factor and
power cycle pass through unscaled, and every other numeric field is the
raw value divided by 10, answered with status 200, content type text/html
and the fixed body [0]. -/
theorem handle_scaling (now : Int) (body : List Char)
    (i w v a wh wmx vmx amx wmi vmi ami pf pcy frq va : List Char)
    (qw qv qa qwh qwmx qvmx qamx qwmi qvmi qami qpf qpcy qfrq qva : ℚ)
    (hkeys : optList [qsLookup body "id".data, qsLookup body "w".data,
        qsLookup body "v".data, qsLookup body "a".data,
        qsLookup body "wh".data, qsLookup body "wmx".data,
        qsLookup body "vmx".data, qsLookup body "amx".data,
        qsLookup body "wmi".data, qsLookup body "vmi".data,
        qsLookup body "ami".data, qsLookup body "pf".data,
        qsLookup body "pcy".data, qsLookup body "frq".data,
        qsLookup body "va".data] =
      some [i, w, v, a, wh, wmx, vmx, amx, wmi, vmi, ami, pf, pcy, frq, va])
    (hq : optList [pyFloat w, pyFloat v, pyFloat a, pyFloat wh, pyFloat wmx,
        pyFloat vmx, pyFloat amx, pyFloat wmi, pyFloat vmi, pyFloat ami,
        pyFloat pf, pyFloat pcy, pyFloat frq, pyFloat va] =
      some [qw, qv, qa, qwh, qwmx, qvmx, qamx, qwmi, qvmi, qami, qpf, qpcy,
        qfrq, qva]) :
    handle now body =
      some ([("time", JVal.num (now : ℚ)),
             ("id", JVal.str i),
             ("watts", JVal.num (qw / 10)),
             ("volts", JVal.num (qv / 10)),
             ("amps", JVal.num (qa / 10)),
             ("watt-hours", JVal.num (qwh / 10)),
             ("max watts", JVal.num (qwmx / 10)),
             ("max volts", JVal.num (qvmx / 10)),
             ("max amps", JVal.num (qamx / 10)),
             ("min watts", JVal.num (qwmi / 10)),
             ("min volts", JVal.num (qvmi / 10)),
             ("min amps", JVal.num (qami / 10)),
             ("power factor", JVal.num qpf),
             ("power cycle", JVal.num qpcy),
             ("frequency", JVal.num (qfrq / 10)),
             ("volt-amps", JVal.num (qva / 10))],
            ⟨200, "text/html", "[0]"⟩) := by
  unfold handle
  rw [hkeys]
  simp only [List.drop_succ_cons, List.drop_zero, List.map_cons, List.map_nil,
    hq, List.getD_cons_zero, List.getD_cons_succ]

/-- Witness for C3 at the documented example body: watts 100, volts 230,
amps 45, power factor 0.95, id dev1, status 200 and body [0]. -/
theorem handle_scaling_witness :
    handle 0 ("id=dev1&w=1000&v=2300&a=450&wh=500&wmx=1100&vmx=2400&amx=500&wmi=900&vmi=2200&ami=400&pf=0.95&pcy=1&frq=600&va=1050").data =
      some ([("time", JVal.num ((0 : Int) : ℚ)),
             ("id", JVal.str "dev1".data),
             ("watts", JVal.num ((1000 : ℚ) / 10)),
             ("volts", JVal.num ((2300 : ℚ) / 10)),
             ("amps", JVal.num ((450 : ℚ) / 10)),
             ("watt-hours", JVal.num ((500 : ℚ) / 10)),
             ("max watts", JVal.num ((1100 : ℚ) / 10)),
             ("max volts", JVal.num ((2400 : ℚ) / 10)),
             ("max amps", JVal.num ((500 : ℚ) / 10)),
             ("min watts", JVal.num ((900 : ℚ) / 10)),
             ("min volts", JVal.num ((2200 : ℚ) / 10)),
             ("min amps", JVal.num ((400 : ℚ) / 10)),
             ("power factor", JVal.num ((0 : ℚ) + (95 : ℚ) / 10 ^ 2)),
             ("power cycle", JVal.num (1 : ℚ)),
             ("frequency", JVal.num ((600 : ℚ) / 10)),
             ("volt-amps", JVal.num ((1050 : ℚ) / 10))],
            ⟨200, "text/html", "[0]"⟩) ∧
    ((1000 : ℚ) / 10 = 100 ∧ (2300 : ℚ) / 10 = 230 ∧ (450 : ℚ) / 10 = 45 ∧
      (0 : ℚ) + (95 : ℚ) / 10 ^ 2 = 0.95) :=
  ⟨handle_scaling 0 _ "dev1".data "1000".data "2300".data "450".data
      "500".data "1100".data "2400".data "500".data "900".data "2200".data
      "400".data "0.95".data "1".data "600".data "1050".data
      1000 2300 450 500 1100 2400 500 900 2200 400
      ((0 : ℚ) + (95 : ℚ) / 10 ^ 2) 1 600 1050
      (by decide) (by rfl),
   by norm_num⟩

/-! Claim C4. -/

/-- C4 counterexample: a request whose url-encoded body is missing the
required id key is not answered at all — handle fails on the lookup
before any response is produced — refuting that every handled request is
answered with status 200 and body [0]. -/
theorem handle_missing_key_cex : handle 0 "w=1000&v=2300".data = none := by
  decide

/-- C4 amended: every request the receiver answers at all is answered with
HTTP status 200, content type text/html, and the fixed literal body [0];
a request whose body is missing a required key produces no response,
since the unhandled lookup error aborts the handler before the response
is sent. -/
theorem handle_response_constant (now : Int) (body : List Char)
    (rec : List (String × JVal)) (resp : HttpResponse)
    (h : handle now body = some (rec, resp)) :
    resp = ⟨200, "text/html", "[0]"⟩ := by
  unfold handle at h
  split at h
  · exact absurd h (by simp)
  · split at h
    · exact absurd h (by simp)
    · simp only [Option.some.injEq, Prod.mk.injEq] at h
      exact h.2.symm

/-- Witness for C4 at a complete body: the response produced is exactly
status 200, text/html, body [0]. -/
theorem handle_response_constant_witness :
    handle 7 ("id=m&w=10&v=20&a=30&wh=40&wmx=50&vmx=60&amx=70&wmi=80&vmi=90&ami=100&pf=110&pcy=120&frq=130&va=140").data =
      some ([("time", JVal.num ((7 : Int) : ℚ)),
             ("id", JVal.str ['m']),
             ("watts", JVal.num ((10 : ℚ) / 10)),
             ("volts", JVal.num ((20 : ℚ) / 10)),
             ("amps", JVal.num ((30 : ℚ) / 10)),
             ("watt-hours", JVal.num ((40 : ℚ) / 10)),
             ("max watts", JVal.num ((50 : ℚ) / 10)),
             ("max volts", JVal.num ((60 : ℚ) / 10)),
             ("max amps", JVal.num ((70 : ℚ) / 10)),
             ("min watts", JVal.num ((80 : ℚ) / 10)),
             ("min volts", JVal.num ((90 : ℚ) / 10)),
             ("min amps", JVal.num ((100 : ℚ) / 10)),
             ("power factor", JVal.num (110 : ℚ)),
             ("power cycle", JVal.num (120 : ℚ)),
             ("frequency", JVal.num ((130 : ℚ) / 10)),
             ("volt-amps", JVal.num ((140 : ℚ) / 10))],
            ⟨200, "text/html", "[0]"⟩) ∧
    (⟨200, "text/html", "[0]"⟩ : HttpResponse) = ⟨200, "text/html", "[0]"⟩ :=
  ⟨by rfl,
   handle_response_constant 7
     ("id=m&w=10&v=20&a=30&wh=40&wmx=50&vmx=60&amx=70&wmi=80&vmi=90&ami=100&pf=110&pcy=120&frq=130&va=140").data
     [("time", JVal.num ((7 : Int) : ℚ)),
      ("id", JVal.str ['m']),
      ("watts", JVal.num ((10 : ℚ) / 10)),
      ("volts", JVal.num ((20 : ℚ) / 10)),
      ("amps", JVal.num ((30 : ℚ) / 10)),
      ("watt-hours", JVal.num ((40 : ℚ) / 10)),
      ("max watts", JVal.num ((50 : ℚ) / 10)),
      ("max volts", JVal.num ((60 : ℚ) / 10)),
      ("max amps", JVal.num ((70 : ℚ) / 10)),
      ("min watts", JVal.num ((80 : ℚ) / 10)),
      ("min volts", JVal.num ((90 : ℚ) / 10)),
      ("min amps", JVal.num ((100 : ℚ) / 10)),
      ("power factor", JVal.num (110 : ℚ)),
      ("power cycle", JVal.num (120 : ℚ)),
      ("frequency", JVal.num ((130 : ℚ) / 10)),
      ("volt-amps", JVal.num ((140 : ℚ) / 10))]
     ⟨200, "text/html", "[0]"⟩ (by rfl)⟩
